import Mathlib

/-!
Shallow embedding of the currency-aware valuation core of
`src/backend/main.py` (portfolio-tracker).

Conventions of the embedding:
* Python `float` values are modelled as `ℚ` (exact arithmetic); the
  NaN-propagation aspect needed by one claim is modelled separately with
  `Option ℚ` (`none` = NaN) further below.
* Timestamps (`datetime`) are modelled as `ℚ` seconds; `(a - b).total_seconds()`
  becomes `a - b`.
* Network calls are modelled by passing their results as explicit arguments:
  a rate source yields `Option ℚ` (`none` covers both an exception and a
  `None` return), a price fetch yields the value `get_price_with_fallbacks`
  returned.
* Python string truthiness (`if not currency`) is modelled by comparison
  with the empty string, the only falsy value a `str` column takes here.
-/

namespace PortfolioTracker

/-- Python's `str.upper()` (ASCII casing suffices for every string the code
compares: currency codes and asset-type names). -/
def pyUpper (s : String) : String := ⟨s.data.map Char.toUpper⟩

/-- Python's `str.lower()`. -/
def pyLower (s : String) : String := ⟨s.data.map Char.toLower⟩

/-- Python's `str.endswith(suffix)`. -/
def strEndsWith (s suffix : String) : Bool :=
  s.data.drop (s.data.length - suffix.data.length) == suffix.data

/-- The `Investment` ORM row of `main.py` (the columns the valuation core
reads; `id`, `name`, thesis and the audit timestamps play no role in any
computation modelled here).  `last_price_update` is a timestamp in seconds. -/
structure Investment where
  asset_type : String
  ticker : String
  units : ℚ
  avg_buy_price : ℚ
  current_price : ℚ
  currency : String
  conviction_level : String
  last_price_update : ℚ
deriving Repr, DecidableEq

/-- `CurrencyConverter.convert_to_inr`, with the USD→INR rate that
`get_usd_to_inr_rate` returns passed explicitly (the stateful call is
modelled by `convert_to_inr_st` below and connected by
`calculate_metrics_st_factor`). -/
def convert_to_inr (amount : ℚ) (from_currency : String) (rate : ℚ) : ℚ :=
  if pyUpper from_currency = "INR" then amount
  else if pyUpper from_currency = "USD" then amount * rate
  else amount

/-- The dict returned by `calculate_metrics`. -/
structure Metrics where
  total_value_inr : ℚ
  total_invested_inr : ℚ
  unrealized_pnl_inr : ℚ
  unrealized_pnl_percent : ℚ
  usd_to_inr_rate : Option ℚ
deriving Repr, DecidableEq

/-- `calculate_metrics` of `main.py`, with the USD→INR rate passed
explicitly.  Both conversions use the holding's single `currency` column,
exactly as lines 626–627 of the source do. -/
def calculate_metrics (inv : Investment) (rate : ℚ) : Metrics :=
  let total_value_native := inv.units * inv.current_price
  let total_invested_native := inv.units * inv.avg_buy_price
  let total_value_inr := convert_to_inr total_value_native inv.currency rate
  let total_invested_inr := convert_to_inr total_invested_native inv.currency rate
  let unrealized_pnl_inr := total_value_inr - total_invested_inr
  let unrealized_pnl_percent :=
    if total_invested_inr > 0 then unrealized_pnl_inr / total_invested_inr * 100 else 0
  { total_value_inr := total_value_inr
    total_invested_inr := total_invested_inr
    unrealized_pnl_inr := unrealized_pnl_inr
    unrealized_pnl_percent := unrealized_pnl_percent
    usd_to_inr_rate := if inv.currency = "USD" then some rate else none }

/-- The Indian-exchange suffix test `ticker.endswith(('.NS', '.BO'))`. -/
def hasIndianSuffix (ticker : String) : Bool :=
  strEndsWith ticker ".NS" || strEndsWith ticker ".BO"

/-- `PriceFetcher.get_price_in_native_currency`.  The results of
`get_price_with_fallbacks` for the crypto path and the stock path are passed
as arguments (`none` would be a `None` return; the code's `or 0.0` coalesces
it to `0.0`). -/
def get_price_in_native_currency (asset_type ticker : String)
    (cryptoFetch stockFetch : Option ℚ) : ℚ × String :=
  if pyLower asset_type = "crypto" then (cryptoFetch.getD 0, "USD")
  else if hasIndianSuffix ticker then (stockFetch.getD 0, "INR")
  else if pyLower asset_type = "stock" && !(hasIndianSuffix ticker) then
    (stockFetch.getD 0, "USD")
  else (stockFetch.getD 0, "INR")

/-- The currency-defaulting logic at the top of `create_investment`
(lines 692–702): a missing (`""`, Python-falsy) or `"INR"` client currency is
re-derived from ticker suffix and asset type; anything else is kept. -/
def create_investment_currency (supplied ticker asset_type : String) : String :=
  if supplied = "" ∨ supplied = "INR" then
    if hasIndianSuffix ticker then "INR"
    else if pyLower asset_type = "crypto" then "USD"
    else if pyLower asset_type = "stock" then "USD"
    else "INR"
  else supplied

/-- The per-investment body of the `update_all_prices` loop (lines 536–558):
`now` is `datetime.utcnow()`, `fetched` is the `(new_price, price_currency)`
pair returned by `get_price_in_native_currency`. -/
def update_investment_price (inv : Investment) (now : ℚ) (fetched : ℚ × String) :
    Investment :=
  if now - inv.last_price_update > 900 then
    if fetched.1 > 0 then
      { inv with
        current_price := fetched.1
        last_price_update := now
        currency := if inv.currency = "" then fetched.2 else inv.currency }
    else inv
  else inv

/-- The whole `update_all_prices` pass over the table; the fetch outcome for
each row is supplied by `fetch`. -/
def update_all_prices (invs : List Investment) (now : ℚ)
    (fetch : Investment → ℚ × String) : List Investment :=
  invs.map (fun inv => update_investment_price inv now (fetch inv))

/-! ### The `CurrencyConverter` rate cache as an explicit state machine

`CurrencyConverter` keeps two class attributes, `_usd_to_inr_rate` (initially
`83.0`) and `_last_updated` (initially `None`).  A call to
`get_usd_to_inr_rate` reads the clock (`now`) and, when the cache is stale,
walks the three rate sources in order.  We pass the outcome of each source as
`Option ℚ`: `none` stands for an exception or a `None` return, `some r` for a
returned float `r`. -/

structure RateState where
  usd_to_inr_rate : ℚ
  last_updated : Option ℚ
deriving Repr, DecidableEq

/-- The class attributes as initialised at lines 52–53. -/
def initRateState : RateState := ⟨83, none⟩

/-- The `for source in sources` loop: the first result that is truthy and
passes the sanity check `rate > 70 and rate < 100` (nothing after it is
consulted, because of the `break`). -/
def firstValidRate : List (Option ℚ) → Option ℚ
  | [] => none
  | none :: rest => firstValidRate rest
  | some r :: rest =>
      if r ≠ 0 ∧ 70 < r ∧ r < 100 then some r else firstValidRate rest

/-- The staleness test of line 61: `_last_updated is None or
(now - _last_updated).total_seconds() > 3600`. -/
def isStale : Option ℚ → ℚ → Bool
  | none, _ => true
  | some t, now => decide (now - t > 3600)

/-- `CurrencyConverter.get_usd_to_inr_rate`, returning the rate together with
the class state after the call. -/
def get_usd_to_inr_rate (st : RateState) (now : ℚ) (srcs : List (Option ℚ)) :
    ℚ × RateState :=
  if isStale st.last_updated now then
    match firstValidRate srcs with
    | some r => (r, ⟨r, some now⟩)
    | none => (st.usd_to_inr_rate, st)
  else (st.usd_to_inr_rate, st)

/-- `convert_to_inr` as the code actually runs it: it calls
`get_usd_to_inr_rate` itself when the currency is USD (line 164), so it
threads the class state. -/
def convert_to_inr_st (amount : ℚ) (from_currency : String) (st : RateState)
    (now : ℚ) (srcs : List (Option ℚ)) : ℚ × RateState :=
  if pyUpper from_currency = "INR" then (amount, st)
  else if pyUpper from_currency = "USD" then
    let p := get_usd_to_inr_rate st now srcs
    (amount * p.1, p.2)
  else (amount, st)

/-- `calculate_metrics` as the code actually runs it: one explicit
`get_usd_to_inr_rate` call at the top (line 619) and one inside each of the
two `convert_to_inr` calls (lines 626–627), all against the same class
state, clock and source outcomes. -/
def calculate_metrics_st (inv : Investment) (st : RateState) (now : ℚ)
    (srcs : List (Option ℚ)) : Metrics × RateState :=
  let p0 := get_usd_to_inr_rate st now srcs
  let total_value_native := inv.units * inv.current_price
  let total_invested_native := inv.units * inv.avg_buy_price
  let p1 := convert_to_inr_st total_value_native inv.currency p0.2 now srcs
  let p2 := convert_to_inr_st total_invested_native inv.currency p1.2 now srcs
  let unrealized_pnl_inr := p1.1 - p2.1
  let unrealized_pnl_percent :=
    if p2.1 > 0 then unrealized_pnl_inr / p2.1 * 100 else 0
  ({ total_value_inr := p1.1
     total_invested_inr := p2.1
     unrealized_pnl_inr := unrealized_pnl_inr
     unrealized_pnl_percent := unrealized_pnl_percent
     usd_to_inr_rate := if inv.currency = "USD" then some p0.1 else none },
   p2.2)

/-! ### Portfolio aggregation -/

/-- The Pydantic `PortfolioStats` response model. -/
structure PortfolioStats where
  total_invested : ℚ
  current_value : ℚ
  net_return_percent : ℚ
  total_unrealized_pnl : ℚ
  high_conviction_count : ℕ
  medium_conviction_count : ℕ
  low_conviction_count : ℕ
  total_holdings : ℕ
deriving Repr, DecidableEq

/-- `get_portfolio_stats` with the USD→INR rate passed explicitly.  The code
indexes `conviction_counts[investment.conviction_level]`, which raises
`KeyError` on any level other than High/Medium/Low; that is modelled by
returning `none`. -/
def get_portfolio_stats (invs : List Investment) (rate : ℚ) :
    Option PortfolioStats :=
  if invs.all (fun i =>
      i.conviction_level = "High" || i.conviction_level = "Medium" ||
      i.conviction_level = "Low") then
    let total_invested_inr :=
      (invs.map (fun i => convert_to_inr (i.units * i.avg_buy_price) i.currency rate)).sum
    let current_value_inr :=
      (invs.map (fun i => convert_to_inr (i.units * i.current_price) i.currency rate)).sum
    let total_unrealized_pnl_inr := current_value_inr - total_invested_inr
    let net_return_percent :=
      if total_invested_inr > 0 then
        total_unrealized_pnl_inr / total_invested_inr * 100
      else 0
    some
      { total_invested := total_invested_inr
        current_value := current_value_inr
        net_return_percent := net_return_percent
        total_unrealized_pnl := total_unrealized_pnl_inr
        high_conviction_count :=
          (invs.filter (fun i => i.conviction_level = "High")).length
        medium_conviction_count :=
          (invs.filter (fun i => i.conviction_level = "Medium")).length
        low_conviction_count :=
          (invs.filter (fun i => i.conviction_level = "Low")).length
        total_holdings := invs.length }
  else none

/-! ### NaN-aware re-embedding of the valuation arithmetic

Python floats admit NaN, and `calculate_metrics` contains no
`isnan`/clamping code at all.  To settle the claim about NaN clamping we
re-embed the same arithmetic over `FVal := Option ℚ`, where `none` is NaN
and `some q` a finite float of exact value `q`, with the IEEE-754 rules the
operations of `calculate_metrics` obey on these values: any arithmetic on a
NaN yields NaN, and any ordered comparison with a NaN is false. -/

abbrev FVal := Option ℚ

def fmul : FVal → FVal → FVal
  | some a, some b => some (a * b)
  | _, _ => none

def fsub : FVal → FVal → FVal
  | some a, some b => some (a - b)
  | _, _ => none

def fdiv : FVal → FVal → FVal
  | some a, some b => if b = 0 then none else some (a / b)
  | _, _ => none

def fgt : FVal → FVal → Bool
  | some a, some b => decide (a > b)
  | _, _ => false

/-- An `Investment` row whose float columns may hold NaN. -/
structure InvestmentF where
  units : FVal
  avg_buy_price : FVal
  current_price : FVal
  currency : String
deriving Repr, DecidableEq

/-- `convert_to_inr` over possibly-NaN floats. -/
def convert_to_inrF (amount : FVal) (from_currency : String) (rate : FVal) : FVal :=
  if pyUpper from_currency = "INR" then amount
  else if pyUpper from_currency = "USD" then fmul amount rate
  else amount

/-- The metrics dict over possibly-NaN floats (the `usd_to_inr_rate` entry,
either `None` or the rate, is irrelevant to the NaN claim and omitted). -/
structure MetricsF where
  total_value_inr : FVal
  total_invested_inr : FVal
  unrealized_pnl_inr : FVal
  unrealized_pnl_percent : FVal
deriving Repr, DecidableEq

/-- `calculate_metrics` over possibly-NaN floats: the same lines 615–639,
with `*`, `-`, `/` and `>` given their IEEE NaN behaviour. -/
def calculate_metricsF (inv : InvestmentF) (rate : FVal) : MetricsF :=
  let total_value_native := fmul inv.units inv.current_price
  let total_invested_native := fmul inv.units inv.avg_buy_price
  let total_value_inr := convert_to_inrF total_value_native inv.currency rate
  let total_invested_inr := convert_to_inrF total_invested_native inv.currency rate
  let unrealized_pnl_inr := fsub total_value_inr total_invested_inr
  let unrealized_pnl_percent :=
    if fgt total_invested_inr (some 0) then
      fmul (fdiv unrealized_pnl_inr total_invested_inr) (some 100)
    else some 0
  { total_value_inr := total_value_inr
    total_invested_inr := total_invested_inr
    unrealized_pnl_inr := unrealized_pnl_inr
    unrealized_pnl_percent := unrealized_pnl_percent }

/-! ### Concrete rows used to exercise the definitions -/

/-- The spec's mixed-currency scenario — crypto bought with 50 000 INR cash,
quoted at 700 USD — as an `Investment` row whose single `currency` column is
`c` (the row has no second currency column to record the other side). -/
def c1Scenario (c : String) : Investment :=
  { asset_type := "Crypto", ticker := "BTC-USD", units := 2, avg_buy_price := 50000,
    current_price := 700, currency := c, conviction_level := "High",
    last_price_update := 0 }

/-- A plain USD stock row. -/
def sampleUsdInv : Investment :=
  { asset_type := "Stock", ticker := "AAPL", units := 10, avg_buy_price := 100,
    current_price := 120, currency := "USD", conviction_level := "Medium",
    last_price_update := 0 }

/-- A row with zero units, hence zero invested value. -/
def zeroInvestedInv : Investment :=
  { asset_type := "Stock", ticker := "AAPL", units := 0, avg_buy_price := 100,
    current_price := 120, currency := "USD", conviction_level := "Low",
    last_price_update := 0 }

/-- A row with a previously known good price, due for a refresh. -/
def c3Row : Investment :=
  { asset_type := "Stock", ticker := "MSFT", units := 3, avg_buy_price := 10,
    current_price := 42, currency := "USD", conviction_level := "High",
    last_price_update := 0 }

/-- A row whose stored `current_price` is NaN. -/
def nanPriceInv : InvestmentF :=
  { units := some 2, avg_buy_price := some 50000, current_price := none,
    currency := "INR" }

/-- The invariant of the `CurrencyConverter` cache: the stored rate is either
the hardcoded fallback `83.0` or a value that passed the sanity check
`70 < rate < 100`. -/
def RateInvariant (st : RateState) : Prop :=
  st.usd_to_inr_rate = 83 ∨ (70 < st.usd_to_inr_rate ∧ st.usd_to_inr_rate < 100)

/-! ## Helper lemmas -/

lemma pyUpper_inr : pyUpper "INR" = "INR" := by decide

lemma pyUpper_usd : pyUpper "USD" = "USD" := by decide

lemma usd_ne_inr : ("USD" : String) ≠ "INR" := by decide

lemma inr_ne_usd : ("INR" : String) ≠ "USD" := by decide

lemma stock_ne_crypto : ("stock" : String) ≠ "crypto" := by decide

/-- Calling `get_usd_to_inr_rate` again, on the state a first call left
behind and with the same clock and source outcomes, returns the same rate
and leaves the state untouched: a successful refresh marks the cache fresh,
and a failed one leaves the state as it was. -/
lemma get_usd_to_inr_rate_idem (st : RateState) (now : ℚ) (srcs : List (Option ℚ)) :
    get_usd_to_inr_rate (get_usd_to_inr_rate st now srcs).2 now srcs =
      get_usd_to_inr_rate st now srcs := by
  by_cases hs : isStale st.last_updated now
  · cases hf : firstValidRate srcs with
    | none =>
      have h1 : get_usd_to_inr_rate st now srcs = (st.usd_to_inr_rate, st) := by
        simp [get_usd_to_inr_rate, hs, hf]
      rw [h1]
      simp [get_usd_to_inr_rate, hs, hf]
    | some r =>
      have h1 : get_usd_to_inr_rate st now srcs = (r, ⟨r, some now⟩) := by
        simp [get_usd_to_inr_rate, hs, hf]
      rw [h1]
      have h2 : isStale (some now) now = false := by
        simp [isStale]
      simp [get_usd_to_inr_rate, h2]
  · have h1 : get_usd_to_inr_rate st now srcs = (st.usd_to_inr_rate, st) := by
      simp [get_usd_to_inr_rate, hs]
    rw [h1]
    simp [get_usd_to_inr_rate, hs]

/-- An inner `convert_to_inr` call, run on the state left by an earlier
`get_usd_to_inr_rate` call, converts with exactly the rate that earlier
call returned. -/
lemma convert_to_inr_st_spec (amount : ℚ) (cur : String) (st : RateState)
    (now : ℚ) (srcs : List (Option ℚ)) :
    convert_to_inr_st amount cur (get_usd_to_inr_rate st now srcs).2 now srcs =
      (convert_to_inr amount cur (get_usd_to_inr_rate st now srcs).1,
       (get_usd_to_inr_rate st now srcs).2) := by
  unfold convert_to_inr_st convert_to_inr
  split_ifs <;> simp [get_usd_to_inr_rate_idem]

/-- The stateful `calculate_metrics` factors through the rate value: its
result is the pure `calculate_metrics` applied to whatever rate the first
`get_usd_to_inr_rate` call returned. -/
lemma calculate_metrics_st_factor (inv : Investment) (st : RateState) (now : ℚ)
    (srcs : List (Option ℚ)) :
    (calculate_metrics_st inv st now srcs).1 =
      calculate_metrics inv (get_usd_to_inr_rate st now srcs).1 := by
  simp only [calculate_metrics_st, convert_to_inr_st_spec, calculate_metrics]

lemma fmul_none_left (b : FVal) : fmul none b = none := by cases b <;> rfl

lemma fmul_none_right (a : FVal) : fmul a none = none := by cases a <;> rfl

lemma fsub_none_left (b : FVal) : fsub none b = none := by cases b <;> rfl

/-- A rate the source loop accepts always passed the sanity check
`70 < rate < 100`. -/
lemma firstValidRate_sane (srcs : List (Option ℚ)) (r : ℚ)
    (h : firstValidRate srcs = some r) : 70 < r ∧ r < 100 := by
  induction srcs with
  | nil => exact Option.noConfusion h
  | cons x rest ih =>
    cases x with
    | none =>
      rw [firstValidRate] at h
      exact ih h
    | some v =>
      rw [firstValidRate] at h
      split_ifs at h with hv
      · cases h
        exact ⟨hv.2.1, hv.2.2⟩
      · exact ih h

/-! ## Claim C1 -/

/-- C1, counterexample.  The claim predicts, for units=2, a 50 000-INR buy
price, a 700-USD current price and rate 83, the pair
(investedValueInr, currentValueInr) = (100000, 116200).  The `Investment`
row has a single `currency` column, and `calculate_metrics` converts both
sides with it: storing the row with `currency="INR"` (the buy side's
currency) yields a current value of 1400, not 116200; storing it with
`currency="USD"` yields an invested value of 8 300 000, not 100 000. -/
theorem C1_counterexample :
    ((calculate_metrics (c1Scenario "INR") 83).total_invested_inr = 100000 ∧
      (calculate_metrics (c1Scenario "INR") 83).total_value_inr = 1400 ∧
      (1400 : ℚ) ≠ 116200) ∧
    ((calculate_metrics (c1Scenario "USD") 83).total_value_inr = 116200 ∧
      (calculate_metrics (c1Scenario "USD") 83).total_invested_inr = 8300000 ∧
      (8300000 : ℚ) ≠ 100000) := by
  refine ⟨⟨?_, ?_, by norm_num⟩, ⟨?_, ?_, by norm_num⟩⟩ <;>
    norm_num [calculate_metrics, convert_to_inr, c1Scenario, pyUpper_inr, pyUpper_usd,
      usd_ne_inr, inr_ne_usd]

/-- C1, amended.  `calculate_metrics` converts invested and current value
with the holding's one `currency` column, never independently: no stored
currency makes the scenario come out as the claim predicts, and the two
possible storings of the scenario row evaluate as shown. -/
theorem C1_amended_single_currency :
    (∀ c : String,
      ¬ ((calculate_metrics (c1Scenario c) 83).total_invested_inr = 100000 ∧
         (calculate_metrics (c1Scenario c) 83).total_value_inr = 116200)) ∧
    calculate_metrics (c1Scenario "INR") 83 =
      ⟨1400, 100000, -98600, -493/5, none⟩ ∧
    calculate_metrics (c1Scenario "USD") 83 =
      ⟨116200, 8300000, -8183800, -493/5, some 83⟩ := by
  refine ⟨?_, ?_, ?_⟩
  · intro c
    simp only [calculate_metrics, convert_to_inr, c1Scenario]
    split_ifs <;> norm_num
  · norm_num [calculate_metrics, convert_to_inr, c1Scenario, pyUpper_inr, pyUpper_usd,
      usd_ne_inr, inr_ne_usd, Metrics.mk.injEq]
  · norm_num [calculate_metrics, convert_to_inr, c1Scenario, pyUpper_inr, pyUpper_usd,
      usd_ne_inr, inr_ne_usd, Metrics.mk.injEq]

/-- C1, witness for the amended theorem at the concrete currency "USD". -/
theorem C1_amended_witness :
    ¬ ((calculate_metrics (c1Scenario "USD") 83).total_invested_inr = 100000 ∧
       (calculate_metrics (c1Scenario "USD") 83).total_value_inr = 116200) :=
  C1_amended_single_currency.1 "USD"

/-! ## Claim C2 -/

/-- C2, counterexample.  A Crypto-class asset with an Indian-exchange
ticker suffix is classified USD, not INR: the crypto branch is tested
before the suffix branch, so the suffix does not force INR regardless of
asset class. -/
theorem C2_counterexample :
    (get_price_in_native_currency "Crypto" "RELIANCE.NS" (some 100) (some 2000)).2
      = "USD" ∧ "USD" ≠ "INR" := by
  constructor
  · have h : pyLower "Crypto" = "crypto" := by decide
    simp [get_price_in_native_currency, h]
  · decide

/-- C2, amended.  For every asset class other than Crypto (Stock,
MutualFund, anything else), a ticker ending in `.NS` or `.BO` is classified
INR. -/
theorem C2_indian_suffix_forces_inr (asset ticker : String) (cf sf : Option ℚ)
    (hcrypto : pyLower asset ≠ "crypto")
    (hsuffix : strEndsWith ticker ".NS" = true ∨ strEndsWith ticker ".BO" = true) :
    (get_price_in_native_currency asset ticker cf sf).2 = "INR" := by
  have hInd : hasIndianSuffix ticker = true := by
    rcases hsuffix with h | h <;> simp [hasIndianSuffix, h]
  simp [get_price_in_native_currency, hcrypto, hInd]

/-- C2, witness: a Stock with an `.NS` ticker is classified INR. -/
theorem C2_witness :
    (pyLower "Stock" ≠ "crypto") ∧
    (strEndsWith "TCS.NS" ".NS" = true ∨ strEndsWith "TCS.NS" ".BO" = true) ∧
    (get_price_in_native_currency "Stock" "TCS.NS" none (some 3500)).2 = "INR" :=
  ⟨by decide, Or.inl (by decide),
    C2_indian_suffix_forces_inr "Stock" "TCS.NS" none (some 3500) (by decide)
      (Or.inl (by decide))⟩

/-! ## Claim C3 -/

/-- C3.  In the background refresh, a holding whose fetch yields the `0.0`
failure sentinel keeps its prior `current_price`: the batch result at that
holding's position has the same price the row had before. -/
theorem C3_refresh_never_overwrites_with_zero
    (invs : List Investment) (now : ℚ) (fetch : Investment → ℚ × String)
    (k : ℕ) (inv : Investment) (hk : invs[k]? = some inv)
    (hfail : (fetch inv).1 = 0) :
    ∃ inv', (update_all_prices invs now fetch)[k]? = some inv' ∧
      inv'.current_price = inv.current_price := by
  refine ⟨update_investment_price inv now (fetch inv), ?_, ?_⟩
  · simp only [update_all_prices, List.getElem?_map, hk, Option.map_some']
  · unfold update_investment_price
    rw [hfail]
    simp

/-- C3, witness: a stale row with known price 42 keeps it when the fetch
fails. -/
theorem C3_witness :
    [c3Row][0]? = some c3Row ∧
    ∃ inv', (update_all_prices [c3Row] 1000 (fun _ => (0, "USD")))[0]? = some inv' ∧
      inv'.current_price = c3Row.current_price :=
  ⟨rfl, C3_refresh_never_overwrites_with_zero [c3Row] 1000 (fun _ => (0, "USD")) 0 c3Row
    rfl rfl⟩

/-! ## Claim C4 -/

/-- C4.  A holding with zero INR invested value gets `pnlPercent` exactly 0
from `calculate_metrics`, and `get_portfolio_stats` applies the same
zero-invested guard to the portfolio-level `net_return_percent`. -/
theorem C4_zero_invested_guard (inv : Investment) (rate : ℚ)
    (invs : List Investment) (s : PortfolioStats) :
    ((calculate_metrics inv rate).total_invested_inr = 0 →
      (calculate_metrics inv rate).unrealized_pnl_percent = 0) ∧
    (get_portfolio_stats invs rate = some s → s.total_invested = 0 →
      s.net_return_percent = 0) := by
  constructor
  · intro h
    have h' : convert_to_inr (inv.units * inv.avg_buy_price) inv.currency rate = 0 := by
      simpa [calculate_metrics] using h
    simp [calculate_metrics, h']
  · intro hs h0
    simp only [get_portfolio_stats] at hs
    split_ifs at hs with hc hgt
    · simp only [Option.some.injEq] at hs
      subst hs
      exact absurd h0 (ne_of_gt hgt)
    · simp only [Option.some.injEq] at hs
      subst hs
      rfl

/-- C4, witness at a zero-units holding and at the empty portfolio. -/
theorem C4_witness :
    (calculate_metrics zeroInvestedInv 83).total_invested_inr = 0 ∧
    (calculate_metrics zeroInvestedInv 83).unrealized_pnl_percent = 0 ∧
    get_portfolio_stats [] 83 = some ⟨0, 0, 0, 0, 0, 0, 0, 0⟩ ∧
    (⟨0, 0, 0, 0, 0, 0, 0, 0⟩ : PortfolioStats).net_return_percent = 0 := by
  have h1 : (calculate_metrics zeroInvestedInv 83).total_invested_inr = 0 := by
    norm_num [calculate_metrics, convert_to_inr, zeroInvestedInv, pyUpper_usd, usd_ne_inr]
  have h2 : get_portfolio_stats [] 83 = some ⟨0, 0, 0, 0, 0, 0, 0, 0⟩ := by
    simp [get_portfolio_stats]
  exact ⟨h1, (C4_zero_invested_guard zeroInvestedInv 83 [] ⟨0, 0, 0, 0, 0, 0, 0, 0⟩).1 h1,
    h2, (C4_zero_invested_guard zeroInvestedInv 83 [] ⟨0, 0, 0, 0, 0, 0, 0, 0⟩).2 h2 rfl⟩

/-! ## Claim C5 -/

/-- C5, counterexample.  `calculate_metrics` contains no NaN clamping: a
row whose stored `current_price` is NaN produces `total_value_inr = NaN`,
not the `0.0` the claim requires. -/
theorem C5_counterexample :
    (calculate_metricsF nanPriceInv (some 83)).total_value_inr = none ∧
    (none : FVal) ≠ some 0 :=
  ⟨rfl, by decide⟩

/-- C5, amended.  NaN is propagated, not clamped: whenever the stored
current price is NaN, both `total_value_inr` and `unrealized_pnl_inr`
come out NaN, for every holding and rate. -/
theorem C5_amended_nan_propagates (inv : InvestmentF) (rate : FVal)
    (h : inv.current_price = none) :
    (calculate_metricsF inv rate).total_value_inr = none ∧
    (calculate_metricsF inv rate).unrealized_pnl_inr = none := by
  have h1 : fmul inv.units inv.current_price = none := by
    rw [h]
    exact fmul_none_right _
  have h2 : convert_to_inrF (fmul inv.units inv.current_price) inv.currency rate = none := by
    rw [h1]
    unfold convert_to_inrF
    split_ifs
    · rfl
    · exact fmul_none_left _
    · rfl
  refine ⟨?_, ?_⟩
  · simp only [calculate_metricsF]
    exact h2
  · simp only [calculate_metricsF]
    rw [h2]
    exact fsub_none_left _

/-- C5, witness at the concrete NaN-price row. -/
theorem C5_amended_witness :
    nanPriceInv.current_price = none ∧
    (calculate_metricsF nanPriceInv (some 83)).total_value_inr = none ∧
    (calculate_metricsF nanPriceInv (some 83)).unrealized_pnl_inr = none :=
  ⟨rfl, (C5_amended_nan_propagates nanPriceInv (some 83) rfl).1,
    (C5_amended_nan_propagates nanPriceInv (some 83) rfl).2⟩

/-! ## Claim C6 -/

/-- C6.  `calculate_metrics` is a pure function of the holding and the
exchange rate: two runs against arbitrary cache states, clocks and
source outcomes produce identical metrics whenever the rate
`get_usd_to_inr_rate` yields is the same, independent of any other
state. -/
theorem C6_metrics_pure (inv : Investment) (st1 st2 : RateState)
    (now1 now2 : ℚ) (srcs1 srcs2 : List (Option ℚ))
    (h : (get_usd_to_inr_rate st1 now1 srcs1).1 = (get_usd_to_inr_rate st2 now2 srcs2).1) :
    (calculate_metrics_st inv st1 now1 srcs1).1 =
      (calculate_metrics_st inv st2 now2 srcs2).1 := by
  rw [calculate_metrics_st_factor, calculate_metrics_st_factor, h]

/-- C6, witness: a cold cache with no sources and a warm cache offered a
different source rate both resolve to 83 and give identical metrics. -/
theorem C6_witness :
    (get_usd_to_inr_rate initRateState 0 []).1 =
      (get_usd_to_inr_rate (⟨83, some 0⟩ : RateState) 100 [some 95]).1 ∧
    (calculate_metrics_st sampleUsdInv initRateState 0 []).1 =
      (calculate_metrics_st sampleUsdInv ⟨83, some 0⟩ 100 [some 95]).1 := by
  have hr : (get_usd_to_inr_rate initRateState 0 []).1 =
      (get_usd_to_inr_rate (⟨83, some 0⟩ : RateState) 100 [some 95]).1 := by
    norm_num [get_usd_to_inr_rate, initRateState, isStale, firstValidRate]
  exact ⟨hr, C6_metrics_pure sampleUsdInv _ _ _ _ _ _ hr⟩

/-! ## Claim C7 -/

/-- C7.  When every rate source fails the loop (`firstValidRate` comes up
empty), `get_usd_to_inr_rate` returns exactly 83 on the never-fetched
initial state, and on any state it returns the cached
`_usd_to_inr_rate` value. -/
theorem C7_fallback_rate (now : ℚ) (srcs : List (Option ℚ)) (st : RateState)
    (h : firstValidRate srcs = none) :
    (get_usd_to_inr_rate initRateState now srcs).1 = 83 ∧
    (get_usd_to_inr_rate st now srcs).1 = st.usd_to_inr_rate := by
  constructor
  · simp [get_usd_to_inr_rate, initRateState, isStale, h]
  · by_cases hs : isStale st.last_updated now <;> simp [get_usd_to_inr_rate, hs, h]

/-- C7, witness: an erroring source, an out-of-range rate and a zero rate
all fail; the cold cache answers 83 and a cache holding 91 answers 91. -/
theorem C7_witness :
    firstValidRate [none, some 200, some 0] = none ∧
    (get_usd_to_inr_rate initRateState 5 [none, some 200, some 0]).1 = 83 ∧
    (get_usd_to_inr_rate (⟨91, some 1⟩ : RateState) 5 [none, some 200, some 0]).1 = 91 := by
  have hsrc : firstValidRate [none, some 200, some 0] = none := by
    norm_num [firstValidRate]
  exact ⟨hsrc, (C7_fallback_rate 5 _ ⟨91, some 1⟩ hsrc).1,
    (C7_fallback_rate 5 _ ⟨91, some 1⟩ hsrc).2⟩

/-! ## Claim C8 -/

/-- C8.  With a successful fetch recorded less than 3600 seconds ago, a
call to `get_usd_to_inr_rate` returns the cached rate and leaves the cache
untouched, whatever the sources would answer (so no source is consulted);
two such calls return the identical value. -/
theorem C8_cache_fresh (st : RateState) (t now1 now2 : ℚ)
    (srcs1 srcs2 : List (Option ℚ))
    (hl : st.last_updated = some t) (h1 : now1 - t < 3600) (h2 : now2 - t < 3600) :
    get_usd_to_inr_rate st now1 srcs1 = (st.usd_to_inr_rate, st) ∧
    get_usd_to_inr_rate st now2 srcs2 = (st.usd_to_inr_rate, st) := by
  have hs1 : isStale st.last_updated now1 = false := by
    rw [hl]
    simp only [isStale, decide_eq_false_iff_not, not_lt]
    linarith
  have hs2 : isStale st.last_updated now2 = false := by
    rw [hl]
    simp only [isStale, decide_eq_false_iff_not, not_lt]
    linarith
  constructor <;> simp [get_usd_to_inr_rate, hs1, hs2]

/-- C8, witness: rate 85 fetched at t=100 is returned unchanged at t=200
and t=3000, ignoring sources offering 95 and 96. -/
theorem C8_witness :
    get_usd_to_inr_rate (⟨85, some 100⟩ : RateState) 200 [some 95] =
      (85, (⟨85, some 100⟩ : RateState)) ∧
    get_usd_to_inr_rate (⟨85, some 100⟩ : RateState) 3000 [some 96] =
      (85, (⟨85, some 100⟩ : RateState)) :=
  C8_cache_fresh ⟨85, some 100⟩ 100 200 3000 [some 95] [some 96] rfl
    (by norm_num) (by norm_num)

/-! ## Claim C9 -/

/-- C9.  In `create_investment`, a client-supplied "INR" is treated exactly
like an absent currency: for a ticker without an Indian suffix and a Stock
or Crypto asset type, the stored currency becomes "USD" either way, so an
explicit INR choice is never honored. -/
theorem C9_inr_choice_not_honored (ticker asset : String)
    (h1 : hasIndianSuffix ticker = false)
    (h2 : pyLower asset = "crypto" ∨ pyLower asset = "stock") :
    create_investment_currency "INR" ticker asset = "USD" ∧
    create_investment_currency "" ticker asset = "USD" ∧
    create_investment_currency "INR" ticker asset =
      create_investment_currency "" ticker asset := by
  rcases h2 with h2 | h2 <;>
    simp [create_investment_currency, h1, h2, stock_ne_crypto]

/-- C9, witness at a US stock ticker. -/
theorem C9_witness :
    hasIndianSuffix "AAPL" = false ∧
    create_investment_currency "INR" "AAPL" "Stock" = "USD" ∧
    create_investment_currency "" "AAPL" "Stock" = "USD" :=
  ⟨by decide,
    (C9_inr_choice_not_honored "AAPL" "Stock" (by decide) (Or.inr (by decide))).1,
    (C9_inr_choice_not_honored "AAPL" "Stock" (by decide) (Or.inr (by decide))).2.1⟩

/-! ## Claim C10 -/

/-- C10.  The cache invariant — the stored rate is the hardcoded 83 or a
value strictly between 70 and 100 — holds initially and is preserved by
every `get_usd_to_inr_rate` call, because a fetched rate is stored (with
its timestamp) only after passing the sanity check. -/
theorem C10_rate_invariant (st : RateState) (now : ℚ) (srcs : List (Option ℚ))
    (h : RateInvariant st) :
    RateInvariant initRateState ∧
    RateInvariant (get_usd_to_inr_rate st now srcs).2 := by
  refine ⟨Or.inl rfl, ?_⟩
  by_cases hs : isStale st.last_updated now
  · cases hf : firstValidRate srcs with
    | none => simpa [get_usd_to_inr_rate, hs, hf] using h
    | some r =>
      have hst : (get_usd_to_inr_rate st now srcs).2 = ⟨r, some now⟩ := by
        simp [get_usd_to_inr_rate, hs, hf]
      rw [hst]
      exact Or.inr (firstValidRate_sane srcs r hf)
  · simpa [get_usd_to_inr_rate, hs] using h

/-- C10, witness: the initial state satisfies the invariant and keeps it
after accepting a fetched rate of 90. -/
theorem C10_witness :
    RateInvariant initRateState ∧
    RateInvariant (get_usd_to_inr_rate initRateState 0 [some 90]).2 :=
  C10_rate_invariant initRateState 0 [some 90] (Or.inl rfl)

end PortfolioTracker
